import Mathlib

/-!
Shallow embedding of the HPM-MAP dashboard (`app.py`): the record
normalizer (`load_data`), the boundary loader (`load_shapes`), the
sidebar filter (`df_filtrado`), and the click-triggered aggregation
(`df_comuna`, `df_chart`, the summary table).  Rows of the pandas
DataFrame are modelled as `RawRow` records; numeric coercion of the
coordinate columns (`pd.to_numeric(..., errors='coerce')` followed by
`dropna`) is modelled by `Option Int` fields where `none` stands for a
missing or non-numeric cell.
-/

/-- The nine canonical comunas (`COMUNAS_LLANQUIHUE` in `app.py`). -/
def COMUNAS_LLANQUIHUE : List String :=
  ["Puerto Montt", "Calbuco", "Cochamó", "Fresia",
   "Frutillar", "Llanquihue", "Los Muermos", "Maullín", "Puerto Varas"]

/-- The seven-entry name-correction table (`COMUNA_MAPPING` in `app.py`). -/
def COMUNA_MAPPING : List (String × String) :=
  [("Maullin", "Maullín"),
   ("Cochamo", "Cochamó"),
   ("Rio Negro", "Río Negro"),
   ("Hualaihue", "Hualaihué"),
   ("Futaleufu", "Futaleufú"),
   ("Chaiten", "Chaitén"),
   ("Puqueldon", "Puqueldón")]

/-- The nine amputation-type flag columns (`cols_amputacion` in `app.py`). -/
inductive AmpCol where
  | AMP_DEDO_MANO
  | AMP_PULGAR
  | AMP_DEDO_PIE
  | AMP_A_NIVEL_PIE
  | DESART_TOBILLO
  | AMP_NIVEL_MALEOLO
  | AMP_DEBAJO_RODILLA
  | DESART_RODILLA
  | AMP_ENCIMA_RODILLA
deriving DecidableEq

/-- The fixed column list offered as amputation-filter checkboxes. -/
def cols_amputacion : List AmpCol :=
  [.AMP_DEDO_MANO, .AMP_PULGAR, .AMP_DEDO_PIE, .AMP_A_NIVEL_PIE,
   .DESART_TOBILLO, .AMP_NIVEL_MALEOLO, .AMP_DEBAJO_RODILLA,
   .DESART_RODILLA, .AMP_ENCIMA_RODILLA]

/-- One row of the patient CSV, after reading.  `lat`/`lng` carry the
result of the numeric coercion (`none` = the cell was missing or
non-numeric).  The amputation columns are the 0/1 flags summed by the
amputation filter. -/
structure RawRow where
  codigo : String
  comuna : String
  sexo : String
  severidad : String
  edad : Int
  tiempo : Int
  km : Int
  totalAmputaciones : Nat
  AMP_DEDO_MANO : Bool
  AMP_PULGAR : Bool
  AMP_DEDO_PIE : Bool
  AMP_A_NIVEL_PIE : Bool
  DESART_TOBILLO : Bool
  AMP_NIVEL_MALEOLO : Bool
  AMP_DEBAJO_RODILLA : Bool
  DESART_RODILLA : Bool
  AMP_ENCIMA_RODILLA : Bool
  lat : Option Int
  lng : Option Int
deriving DecidableEq

/-- The value of one amputation flag column of a row. -/
def RawRow.ampFlag (r : RawRow) : AmpCol → Bool
  | .AMP_DEDO_MANO => r.AMP_DEDO_MANO
  | .AMP_PULGAR => r.AMP_PULGAR
  | .AMP_DEDO_PIE => r.AMP_DEDO_PIE
  | .AMP_A_NIVEL_PIE => r.AMP_A_NIVEL_PIE
  | .DESART_TOBILLO => r.DESART_TOBILLO
  | .AMP_NIVEL_MALEOLO => r.AMP_NIVEL_MALEOLO
  | .AMP_DEBAJO_RODILLA => r.AMP_DEBAJO_RODILLA
  | .DESART_RODILLA => r.DESART_RODILLA
  | .AMP_ENCIMA_RODILLA => r.AMP_ENCIMA_RODILLA

/-- One application of the correction table to a district name
(`df['Comuna'].replace(COMUNA_MAPPING)` acting on a single cell). -/
def applyComunaMapping (c : String) : String :=
  match COMUNA_MAPPING.lookup c with
  | some c2 => c2
  | none => c

/-- The row transformation performed by `load_data` after the CSV read:
correct the district names, keep only canonical districts, drop rows
whose coordinates did not coerce to numbers. -/
def normalizeRows (rows : List RawRow) : List RawRow :=
  (((rows.map fun r => { r with comuna := applyComunaMapping r.comuna }).filter
      fun r => COMUNAS_LLANQUIHUE.contains r.comuna).filter
      fun r => r.lat.isSome && r.lng.isSome)

/-- Outcome of `pd.read_csv` on the patient file: the parsed rows, a
`FileNotFoundError`, or any other exception while reading. -/
inductive ReadResult where
  | ok (rows : List RawRow)
  | fileNotFound
  | readError
deriving DecidableEq

/-- Model of `load_data`: the `try/except FileNotFoundError` around the read.  A
missing file is caught and yields an empty DataFrame; any other
exception is not caught and propagates (`Except.error`). -/
def load_data : ReadResult → Except Unit (List RawRow)
  | .ok rows => .ok (normalizeRows rows)
  | .fileNotFound => .ok []
  | .readError => .error ()

/-- The top-level gate `if df_original.empty: st.stop()`: the dashboard
proceeds past the load exactly when loading returned a non-empty
dataset. -/
def dashboard_proceeds (res : ReadResult) : Bool :=
  match load_data res with
  | .ok rows => !rows.isEmpty
  | .error _ => false

/-- One district boundary feature; `crsEpsg` records which coordinate
reference its geometry is expressed in. -/
structure DistrictBoundary where
  comunaCorregida : String
  crsEpsg : Nat
deriving DecidableEq

/-- Outcome of reading/parsing/reprojecting the GeoJSON file. -/
inductive ShapeReadResult where
  | ok (shapes : List DistrictBoundary)
  | failure
deriving DecidableEq

/-- Reprojection `gdf.to_crs(epsg=4326)` on one feature. -/
def to_crs (b : DistrictBoundary) : DistrictBoundary :=
  { b with crsEpsg := 4326 }

/-- Model of `load_shapes`: reproject to WGS84 on success, `None` on any
exception. -/
def load_shapes : ShapeReadResult → Option (List DistrictBoundary)
  | .ok shapes => some (shapes.map to_crs)
  | .failure => none

/-- The sidebar state: multiselects for comuna/severity/sex and the
checked amputation columns (`tipos_amp_seleccionados`). -/
structure Selection where
  comunas : List String
  severidades : List String
  sexos : List String
  ampCols : List AmpCol
deriving DecidableEq

/-- Value of `df_filtrado[tipos_amp_seleccionados].sum(axis=1)` on one row: the
sum of the selected 0/1 amputation columns. -/
def ampSum (r : RawRow) (cols : List AmpCol) : Nat :=
  (cols.map fun c => if r.ampFlag c then 1 else 0).sum

/-- The filter block of `app.py`: conjunction of the three `isin`
membership tests, then — only when some amputation boxes are checked —
the `sum(axis=1) > 0` test. -/
def df_filtrado (records : List RawRow) (sel : Selection) : List RawRow :=
  let base := records.filter fun r =>
    sel.comunas.contains r.comuna &&
    sel.severidades.contains r.severidad &&
    sel.sexos.contains r.sexo
  if sel.ampCols.isEmpty then base
  else base.filter fun r => decide (0 < ampSum r sel.ampCols)

/-- Model of `df_comuna`: the rows of the active subset whose district equals
the clicked comuna. -/
def df_comuna (activeSubset : List RawRow) (clicked : String) : List RawRow :=
  activeSubset.filter fun r => r.comuna == clicked

/-- Size of one severity group of `sub`. -/
def countSev (sub : List RawRow) (s : String) : Nat :=
  (sub.filter fun r => r.severidad == s).length

/-- Model of `df_chart = df_comuna.groupby('Ultima registro severidad').size()`:
one `(severity, group size)` pair per distinct severity value occurring
in `sub` (pandas also sorts the keys; key order is irrelevant to every
property below, and the chart's display order is set separately in the
plotly layout). -/
def df_chart (sub : List RawRow) : List (String × Nat) :=
  ((sub.map fun r => r.severidad).dedup).map fun s => (s, countSev sub s)

/-- One row of the click-summary table: the projection
`df_comuna[columnas_tabla]` with its renamed display columns. -/
structure DetailRow where
  codigo : String
  sexo : String
  edad : Int
  severidad : String
  amputaciones : Nat
  tiempoHPM : Int
  distanciaKm : Int
deriving DecidableEq

/-- The click-summary table shown under the chart. -/
def tabla_resumen (sub : List RawRow) : List DetailRow :=
  sub.map fun r =>
    { codigo := r.codigo, sexo := r.sexo, edad := r.edad,
      severidad := r.severidad, amputaciones := r.totalAmputaciones,
      tiempoHPM := r.tiempo, distanciaKm := r.km }

/-- The record-and-boundary outputs assembled by the main body of the
script: boundary layer (skipped when `gdf_comunas is None`), the metric,
the filtered rows driving the markers, and the click summary. -/
structure DashboardView where
  boundaryLayer : Option (List DistrictBoundary)
  totalMetric : Nat
  filteredRows : List RawRow
  chart : List (String × Nat)
  detail : List DetailRow

/-- Assembling the dashboard outputs from the loaded boundaries, the
normalized records, the sidebar selection and the clicked comuna. -/
def renderDashboard (gdf : Option (List DistrictBoundary)) (records : List RawRow)
    (sel : Selection) (clicked : String) : DashboardView :=
  let filt := df_filtrado records sel
  let sub := df_comuna filt clicked
  { boundaryLayer := gdf
    totalMetric := filt.length
    filteredRows := filt
    chart := df_chart sub
    detail := tabla_resumen sub }

/-- A concrete well-formed row used for witnesses and counterexamples. -/
def baseRow : RawRow :=
  { codigo := "P1", comuna := "Puerto Montt", sexo := "F", severidad := "Mayor",
    edad := 50, tiempo := 35, km := 20, totalAmputaciones := 1,
    AMP_DEDO_MANO := true, AMP_PULGAR := false, AMP_DEDO_PIE := false,
    AMP_A_NIVEL_PIE := false, DESART_TOBILLO := false,
    AMP_NIVEL_MALEOLO := false, AMP_DEBAJO_RODILLA := false,
    DESART_RODILLA := false, AMP_ENCIMA_RODILLA := false,
    lat := some (-41), lng := some (-72) }

/-- A row carrying the misspelled district name from the correction
table. -/
def rowMaullin : RawRow :=
  { baseRow with codigo := "P2", comuna := "Maullin" }

/-- A row whose latitude cell failed numeric coercion. -/
def rowNoLat : RawRow :=
  { baseRow with codigo := "P3", lat := none }

/-- A row whose severity value lies outside the three canonical
categories. -/
def rowRara : RawRow :=
  { baseRow with codigo := "P4", severidad := "Desconocida" }

/-- A selection that includes the non-canonical severity value. -/
def selRara : Selection :=
  { comunas := ["Puerto Montt"], severidades := ["Desconocida"],
    sexos := ["F"], ampCols := [] }

/-- A selection with two amputation boxes checked. -/
def selAmp : Selection :=
  { comunas := COMUNAS_LLANQUIHUE, severidades := ["Mayor", "Moderada", "Menor"],
    sexos := ["F", "M"], ampCols := [.AMP_DEDO_MANO, .AMP_PULGAR] }

/-- The combined row predicate of the filter block, folding the
amputation clause into a single boolean. -/
def fullPred (sel : Selection) (r : RawRow) : Bool :=
  (sel.comunas.contains r.comuna && sel.severidades.contains r.severidad &&
    sel.sexos.contains r.sexo) &&
  (sel.ampCols.isEmpty || decide (0 < ampSum r sel.ampCols))

theorem ampSum_pos_iff (r : RawRow) (cols : List AmpCol) :
    0 < ampSum r cols ↔ ∃ c ∈ cols, r.ampFlag c = true := by
  induction cols with
  | nil => simp [ampSum]
  | cons c cs ih =>
    cases h : r.ampFlag c
    · simp only [ampSum, List.map_cons, List.sum_cons, h, if_neg Bool.false_ne_true,
        Nat.zero_add]
      rw [show ((cs.map fun c => if r.ampFlag c then 1 else 0).sum
          = ampSum r cs) from rfl, ih]
      simp [h]
    · simp [ampSum, h]

theorem mem_df_filtrado (records : List RawRow) (sel : Selection) (r : RawRow) :
    r ∈ df_filtrado records sel ↔
      r ∈ records ∧ r.comuna ∈ sel.comunas ∧ r.severidad ∈ sel.severidades ∧
        r.sexo ∈ sel.sexos ∧ (sel.ampCols = [] ∨ 0 < ampSum r sel.ampCols) := by
  cases hc : sel.ampCols with
  | nil => simp [df_filtrado, hc, List.mem_filter, and_assoc]
  | cons c cs =>
    simp [df_filtrado, hc, List.mem_filter, and_assoc]
    tauto

theorem df_filtrado_eq_filter (records : List RawRow) (sel : Selection) :
    df_filtrado records sel = records.filter (fullPred sel) := by
  cases hc : sel.ampCols with
  | nil =>
    simp only [df_filtrado, hc, List.isEmpty_nil, if_true]
    refine List.filter_congr fun r _ => ?_
    simp [fullPred, hc]
  | cons c cs =>
    simp only [df_filtrado, hc, List.isEmpty_cons, if_neg Bool.false_ne_true,
      List.filter_filter]
    refine List.filter_congr fun r _ => ?_
    simp [fullPred, hc, Bool.and_comm, Bool.and_assoc, Bool.and_left_comm]

/-- Claim C3: a record is in the filter output iff it is an input
record whose district, severity and sex are each selected and, when
any amputation boxes are checked, at least one checked flag is true
for it; with no boxes checked the amputation clause is vacuous. -/
theorem c3_filter_membership (records : List RawRow) (sel : Selection) (r : RawRow) :
    r ∈ df_filtrado records sel ↔
      r ∈ records ∧ r.comuna ∈ sel.comunas ∧ r.severidad ∈ sel.severidades ∧
        r.sexo ∈ sel.sexos ∧
        (sel.ampCols ≠ [] → ∃ c ∈ sel.ampCols, r.ampFlag c = true) := by
  rw [mem_df_filtrado]
  refine and_congr_right fun _ => and_congr_right fun _ =>
    and_congr_right fun _ => and_congr_right fun _ => ?_
  rw [ampSum_pos_iff]
  by_cases h : sel.ampCols = [] <;> simp [h]

/-- Witness for C3 at a concrete record and selection. -/
theorem c3_witness : baseRow ∈ df_filtrado [baseRow] selAmp :=
  (c3_filter_membership [baseRow] selAmp baseRow).mpr (by decide)

/-- Claim C6: an empty district, severity or sex multiselect yields an
empty filter result. -/
theorem c6_empty_selection (records : List RawRow) (sel : Selection)
    (h : sel.comunas = [] ∨ sel.severidades = [] ∨ sel.sexos = []) :
    df_filtrado records sel = [] := by
  rw [df_filtrado_eq_filter]
  rw [List.filter_eq_nil_iff]
  intro r _
  rcases h with h | h | h <;> simp [fullPred, h]

/-- Witness for C6 with an empty district selection. -/
theorem c6_witness :
    df_filtrado [baseRow]
      { comunas := [], severidades := ["Mayor"], sexos := ["F"], ampCols := [] } = [] :=
  c6_empty_selection [baseRow] _ (Or.inl rfl)

/-- Claim C7: the filter is idempotent. -/
theorem c7_filter_idempotent (records : List RawRow) (sel : Selection) :
    df_filtrado (df_filtrado records sel) sel = df_filtrado records sel := by
  rw [df_filtrado_eq_filter, df_filtrado_eq_filter, List.filter_filter]
  simp [Bool.and_self]

theorem normalize_invariant (rows : List RawRow) (r : RawRow)
    (h : r ∈ normalizeRows rows) :
    r.comuna ∈ COMUNAS_LLANQUIHUE ∧ r.lat.isSome = true ∧ r.lng.isSome = true := by
  simp only [normalizeRows, List.mem_filter, Bool.and_eq_true] at h
  refine ⟨?_, h.2.1, h.2.2⟩
  have hc := h.1.2
  simpa using hc

/-- Claim C4: every normalizer output row has a canonical district and
numeric coordinates, and a row whose coordinates failed coercion never
reaches the output. -/
theorem c4_normalize_wellformed :
    (∀ (rows : List RawRow) (r : RawRow), r ∈ normalizeRows rows →
        r.comuna ∈ COMUNAS_LLANQUIHUE ∧ r.lat.isSome = true ∧ r.lng.isSome = true) ∧
    (∀ (rows : List RawRow) (r : RawRow), r ∈ rows → (r.lat = none ∨ r.lng = none) →
        { r with comuna := applyComunaMapping r.comuna } ∉ normalizeRows rows) := by
  refine ⟨fun rows r h => normalize_invariant rows r h, ?_⟩
  intro rows r _ hnone hmem
  have h := (normalize_invariant rows _ hmem).2
  simp only at h
  rcases hnone with h0 | h0 <;> rw [h0] at h <;> simp at h

/-- Witness for C4: a surviving row and a dropped coordinate-less row. -/
theorem c4_witness :
    (baseRow.comuna ∈ COMUNAS_LLANQUIHUE ∧ baseRow.lat.isSome = true ∧
      baseRow.lng.isSome = true) ∧
    { rowNoLat with comuna := applyComunaMapping rowNoLat.comuna } ∉ normalizeRows [rowNoLat] :=
  ⟨c4_normalize_wellformed.1 [baseRow] baseRow (by decide),
   c4_normalize_wellformed.2 [rowNoLat] rowNoLat (by decide) (Or.inl rfl)⟩

theorem lookup_canonical_none (c : String) (h : c ∈ COMUNAS_LLANQUIHUE) :
    COMUNA_MAPPING.lookup c = none := by
  simp only [COMUNAS_LLANQUIHUE, List.mem_cons, List.not_mem_nil, or_false] at h
  rcases h with h | h | h | h | h | h | h | h | h <;> subst h <;> rfl

/-- Claim C5: a raw row whose district name is a key of the correction
table appears in the output (exactly when it survives the scope and
coordinate checks) under the corrected name, and no output row ever
carries a correctable (original) spelling. -/
theorem c5_mapping_applied :
    (∀ (rows : List RawRow) (r : RawRow) (c : String), r ∈ rows →
        COMUNA_MAPPING.lookup r.comuna = some c →
        ({ r with comuna := c } ∈ normalizeRows rows ↔
          c ∈ COMUNAS_LLANQUIHUE ∧ r.lat.isSome = true ∧ r.lng.isSome = true)) ∧
    (∀ (rows : List RawRow) (r' : RawRow), r' ∈ normalizeRows rows →
        COMUNA_MAPPING.lookup r'.comuna = none) := by
  constructor
  · intro rows r c hr hc
    constructor
    · intro hmem
      simpa using normalize_invariant rows _ hmem
    · rintro ⟨hcan, hlat, hlng⟩
      have hmap : { r with comuna := applyComunaMapping r.comuna } =
          { r with comuna := c } := by
        simp [applyComunaMapping, hc]
      unfold normalizeRows
      refine List.mem_filter.mpr ⟨List.mem_filter.mpr ⟨?_, ?_⟩, ?_⟩
      · rw [← hmap]
        exact List.mem_map_of_mem _ hr
      · simpa using hcan
      · simp only [hlat, hlng, Bool.and_self]
  · intro rows r' h
    exact lookup_canonical_none _ (normalize_invariant rows r' h).1

/-- Witness for C5: the misspelled `Maullin` row survives under the
corrected name `Maullín`. -/
theorem c5_witness :
    { rowMaullin with comuna := "Maullín" } ∈ normalizeRows [rowMaullin] :=
  (c5_mapping_applied.1 [rowMaullin] rowMaullin "Maullín" (by decide) (by decide)).mpr
    (by decide)

/-- Claim C10: the normalizer never inspects the severity column — any
row with a canonical (corrected) district and numeric coordinates is
kept whatever its severity — and such a row also reaches the active
subset when its severity value is selected. -/
theorem c10_severity_not_inspected :
    ∀ (rows : List RawRow) (sel : Selection) (r : RawRow), r ∈ rows →
      applyComunaMapping r.comuna ∈ COMUNAS_LLANQUIHUE →
      r.lat.isSome = true → r.lng.isSome = true →
      ({ r with comuna := applyComunaMapping r.comuna } ∈ normalizeRows rows ∧
        (applyComunaMapping r.comuna ∈ sel.comunas → r.severidad ∈ sel.severidades →
          r.sexo ∈ sel.sexos → sel.ampCols = [] →
          { r with comuna := applyComunaMapping r.comuna } ∈
            df_filtrado (normalizeRows rows) sel)) := by
  intro rows sel r hr hcan hlat hlng
  have hmem : { r with comuna := applyComunaMapping r.comuna } ∈ normalizeRows rows := by
    unfold normalizeRows
    refine List.mem_filter.mpr ⟨List.mem_filter.mpr ⟨List.mem_map_of_mem _ hr, ?_⟩, ?_⟩
    · simpa using hcan
    · simp only [hlat, hlng, Bool.and_self]
  refine ⟨hmem, fun h1 h2 h3 h4 => ?_⟩
  exact (mem_df_filtrado _ _ _).mpr ⟨hmem, h1, h2, h3, Or.inl h4⟩

/-- Witness for C10: a row with the non-canonical severity value
`Desconocida` survives normalization and is in the active subset once
that severity is selected. -/
theorem c10_witness :
    ({ rowRara with comuna := applyComunaMapping rowRara.comuna } ∈
      normalizeRows [rowRara]) ∧
    ({ rowRara with comuna := applyComunaMapping rowRara.comuna } ∈
      df_filtrado (normalizeRows [rowRara]) selRara) :=
  have h := c10_severity_not_inspected [rowRara] selRara rowRara (by decide) (by decide)
    (by decide) (by decide)
  ⟨h.1, h.2 (by decide) (by decide) (by decide) rfl⟩

theorem sum_map_add {α : Type} (l : List α) (f g : α → Nat) :
    (l.map fun x => f x + g x).sum = (l.map f).sum + (l.map g).sum := by
  induction l with
  | nil => simp
  | cons x xs ih =>
    simp only [List.map_cons, List.sum_cons, ih]
    omega

theorem sum_indicator (x : String) (ks : List String) :
    (ks.map fun s => if x == s then 1 else 0).sum = ks.count x := by
  induction ks with
  | nil => simp
  | cons s ks ih =>
    simp only [List.map_cons, List.sum_cons, List.count_cons, ih]
    by_cases h : x = s
    · subst h
      simp [Nat.add_comm]
    · have h1 : (x == s) = false := by simpa using h
      have h2 : (s == x) = false := by simpa using Ne.symm h
      simp [h1, h2]

theorem countSev_cons (r : RawRow) (sub : List RawRow) (s : String) :
    countSev (r :: sub) s = (if r.severidad == s then 1 else 0) + countSev sub s := by
  by_cases h : (r.severidad == s) = true
  · simp [countSev, List.filter_cons, h]
    omega
  · simp [countSev, List.filter_cons, h]

theorem sum_countSev (ks : List String) (hnd : ks.Nodup) :
    ∀ sub : List RawRow, (∀ r ∈ sub, r.severidad ∈ ks) →
      (ks.map fun s => countSev sub s).sum = sub.length := by
  intro sub
  induction sub with
  | nil =>
    intro _
    simp [countSev]
  | cons r sub ih =>
    intro hmem
    have hsum : (ks.map fun s => countSev (r :: sub) s).sum
        = (ks.map fun s => if r.severidad == s then 1 else 0).sum
          + (ks.map fun s => countSev sub s).sum := by
      rw [← sum_map_add]
      simp only [countSev_cons]
    rw [hsum, sum_indicator, ih fun x hx => hmem x (List.mem_cons_of_mem _ hx),
      List.count_eq_one_of_mem hnd (hmem r (List.mem_cons_self _ _))]
    simp [Nat.add_comm]

theorem countSev_pos (m : List RawRow) (s : String)
    (h : ∃ r ∈ m, r.severidad = s) : 0 < countSev m s := by
  obtain ⟨r, hr, hs⟩ := h
  have : r ∈ m.filter fun r => r.severidad == s :=
    List.mem_filter.mpr ⟨hr, by simp [hs]⟩
  exact List.length_pos.mpr (List.ne_nil_of_mem this)

theorem df_chart_spec (m : List RawRow) :
    ((df_chart m).map Prod.snd).sum = m.length ∧
    (∀ p ∈ df_chart m, 0 < p.2) ∧
    (∀ s : String, (∃ n, (s, n) ∈ df_chart m) ↔ ∃ r ∈ m, r.severidad = s) ∧
    ((df_chart m).map Prod.fst).Nodup := by
  refine ⟨?_, ?_, ?_, ?_⟩
  · rw [df_chart, List.map_map]
    have : (Prod.snd ∘ fun s => (s, countSev m s)) = fun s => countSev m s := rfl
    rw [this]
    refine sum_countSev _ (List.nodup_dedup _) m fun r hr => ?_
    exact List.mem_dedup.mpr (List.mem_map_of_mem _ hr)
  · intro p hp
    obtain ⟨s, hs, rfl⟩ := List.mem_map.mp hp
    have hs' : s ∈ m.map fun r => r.severidad := List.mem_dedup.mp hs
    obtain ⟨r, hr, hsev⟩ := List.mem_map.mp hs'
    exact countSev_pos m s ⟨r, hr, hsev⟩
  · intro s
    constructor
    · rintro ⟨n, hn⟩
      obtain ⟨s', hs', heq⟩ := List.mem_map.mp hn
      obtain ⟨rfl, -⟩ := Prod.mk.injEq .. ▸ And.intro (congrArg Prod.fst heq) (congrArg Prod.snd heq)
      have hs'' : s ∈ m.map fun r => r.severidad := List.mem_dedup.mp hs'
      obtain ⟨r, hr, hsev⟩ := List.mem_map.mp hs''
      exact ⟨r, hr, hsev⟩
    · rintro ⟨r, hr, rfl⟩
      have hs : r.severidad ∈ (m.map fun r => r.severidad).dedup :=
        List.mem_dedup.mpr (List.mem_map_of_mem _ hr)
      exact ⟨countSev m r.severidad, List.mem_map_of_mem _ hs⟩
  · rw [df_chart, List.map_map]
    have : (Prod.fst ∘ fun s => (s, countSev m s)) = fun s => s := rfl
    rw [this, List.map_id']
    exact List.nodup_dedup _

/-- Counterexample to C1 as stated: for an active subset holding one
`Mayor` row of Puerto Montt, the click chart contains a single
category, not the three canonical severity categories with zero
counts for the absent ones. -/
theorem c1_counterexample :
    df_chart (df_comuna [baseRow] "Puerto Montt") = [("Mayor", 1)] ∧
    decide (("Menor", 0) ∈ df_chart (df_comuna [baseRow] "Puerto Montt")) = false ∧
    decide ((df_chart (df_comuna [baseRow] "Puerto Montt")).length = 3) = false := by
  decide

/-- Claim C1 (amended): the click chart reports exactly the severity
values present among the matching rows — one entry per distinct
severity, each with a positive count — and the counts sum to the
number of matching rows; categories with no matching rows are omitted
rather than reported as zero. -/
theorem c1_chart_partition (sub : List RawRow) (clicked : String) :
    ((df_chart (df_comuna sub clicked)).map Prod.snd).sum
        = (df_comuna sub clicked).length ∧
    (∀ p ∈ df_chart (df_comuna sub clicked), 0 < p.2) ∧
    (∀ s : String, (∃ n, (s, n) ∈ df_chart (df_comuna sub clicked)) ↔
        ∃ r ∈ df_comuna sub clicked, r.severidad = s) ∧
    ((df_chart (df_comuna sub clicked)).map Prod.fst).Nodup :=
  df_chart_spec (df_comuna sub clicked)

/-- Witness for C1 (amended) at a concrete subset and district. -/
theorem c1_witness :
    ((df_chart (df_comuna [baseRow] "Puerto Montt")).map Prod.snd).sum
      = (df_comuna [baseRow] "Puerto Montt").length :=
  (c1_chart_partition [baseRow] "Puerto Montt").1

/-- Counterexample to C2 as stated: when the clicked district has no
matching rows the chart data is the empty list — it does not carry
all-zero counts for the three severity categories. -/
theorem c2_counterexample :
    df_comuna [baseRow] "Calbuco" = [] ∧
    df_chart (df_comuna [baseRow] "Calbuco") = [] ∧
    decide (("Menor", 0) ∈ df_chart (df_comuna [baseRow] "Calbuco")) = false := by
  decide

/-- Claim C2 (amended): when the clicked district has zero matching
rows, the aggregation still succeeds and yields an empty category list
and an empty detail table (the surrounding script furthermore skips
rendering the summary in this case). -/
theorem c2_empty_match (sub : List RawRow) (clicked : String)
    (h : df_comuna sub clicked = []) :
    df_chart (df_comuna sub clicked) = [] ∧
      tabla_resumen (df_comuna sub clicked) = [] := by
  rw [h]
  exact ⟨rfl, rfl⟩

/-- Witness for C2 (amended) at a concrete subset and district. -/
theorem c2_witness :
    df_chart (df_comuna [baseRow] "Calbuco") = [] ∧
      tabla_resumen (df_comuna [baseRow] "Calbuco") = [] :=
  c2_empty_match [baseRow] "Calbuco" (by decide)

/-- Counterexample to C8 as stated: a readable file whose rows are all
dropped by normalization also halts the dashboard, so a load failure is
not the only fatal condition. -/
theorem c8_counterexample :
    load_data (ReadResult.ok [{ baseRow with comuna := "Santiago" }]) = Except.ok [] ∧
    dashboard_proceeds (ReadResult.ok [{ baseRow with comuna := "Santiago" }]) = false ∧
    decide (ReadResult.ok [{ baseRow with comuna := "Santiago" }]
        = ReadResult.fileNotFound) = false :=
  ⟨rfl, rfl, by decide⟩

/-- Claim C8 (amended): a missing patient file is caught, reported, and
yields the empty dataset, upon which the dashboard halts; any other
read exception propagates uncaught instead of producing an empty
dataset; and the halt condition is emptiness of the loaded dataset, so
the dashboard also halts when the file loads but no row survives
normalization. -/
theorem c8_load_halting :
    load_data ReadResult.fileNotFound = Except.ok [] ∧
    dashboard_proceeds ReadResult.fileNotFound = false ∧
    load_data ReadResult.readError = Except.error () ∧
    (∀ rows : List RawRow,
      dashboard_proceeds (ReadResult.ok rows) = !(normalizeRows rows).isEmpty) :=
  ⟨rfl, rfl, rfl, fun _ => rfl⟩

/-- Claim C9: any boundary read/parse/reprojection failure yields
`none` instead of an exception, and every record-based output of the
dashboard is independent of the boundary argument. -/
theorem c9_boundaries_best_effort :
    load_shapes ShapeReadResult.failure = none ∧
    (∀ (g1 g2 : Option (List DistrictBoundary)) (records : List RawRow)
        (sel : Selection) (clicked : String),
      (renderDashboard g1 records sel clicked).filteredRows
          = (renderDashboard g2 records sel clicked).filteredRows ∧
      (renderDashboard g1 records sel clicked).totalMetric
          = (renderDashboard g2 records sel clicked).totalMetric ∧
      (renderDashboard g1 records sel clicked).chart
          = (renderDashboard g2 records sel clicked).chart ∧
      (renderDashboard g1 records sel clicked).detail
          = (renderDashboard g2 records sel clicked).detail) :=
  ⟨rfl, fun _ _ _ _ _ => ⟨rfl, rfl, rfl, rfl⟩⟩
